import Mathlib

/-!
Shallow embedding of `src/Img_stitching2.py` (class `VideMosaic`): incremental
video mosaicing.  Pixel samples are naturals, point coordinates and matrix
entries are rationals, and the external vision primitives (cv2) are passed in
as explicit capability functions, following the capability interface the
program depends on.  Fallible Python operations (list indexing, attribute
access on `None`, numpy shape errors) are modelled with `Except`.
-/

/-- A 2D point: the `.pt` field of a cv2 keypoint, coordinates as rationals. -/
abbrev Pt := ℚ × ℚ

/-- A descriptor: a fixed-length numeric vector, modelled as a list of rationals. -/
abbrev Desc := List ℚ

/-- An image (frame or canvas): height, width, and a pixel function.  The channel
dimension is folded into the pixel value, since the program treats pixels
elementwise everywhere the claims touch. -/
structure Frame where
  h : ℕ
  w : ℕ
  px : ℕ → ℕ → ℕ

/-- A cv2 `DMatch`: query index (into the current frame's keypoints), train index
(into the previous frame's keypoints), and a distance. -/
structure MatchRec where
  queryIdx : ℕ
  trainIdx : ℕ
  distance : ℚ
deriving DecidableEq

/-- A 2×3 (affine) matrix, as returned by `cv2.estimateAffine2D`. -/
structure Mat23 where
  a00 : ℚ
  a01 : ℚ
  a02 : ℚ
  a10 : ℚ
  a11 : ℚ
  a12 : ℚ
deriving DecidableEq

/-- A 3×3 matrix, as returned by `cv2.findHomography` and used for the pose. -/
structure Mat33 where
  a00 : ℚ
  a01 : ℚ
  a02 : ℚ
  a10 : ℚ
  a11 : ℚ
  a12 : ℚ
  a20 : ℚ
  a21 : ℚ
  a22 : ℚ
deriving DecidableEq

/-- A dynamically shaped numpy matrix as it flows through the Python program:
either 2×3 (affine) or 3×3 (homogeneous).  The shape tag models `H.shape`. -/
inductive PyMat where
  | m23 (a : Mat23)
  | m33 (m : Mat33)
deriving DecidableEq

/-- Line 105: `np.vstack([transform_matrix, [0, 0, 1]])` on a 2×3 matrix. -/
def vstack001 (a : Mat23) : Mat33 :=
  ⟨a.a00, a.a01, a.a02, a.a10, a.a11, a.a12, 0, 0, 1⟩

/-- 3×3 matrix product, as computed by `np.matmul` on two 3×3 arrays. -/
def mul33 (a b : Mat33) : Mat33 :=
  ⟨a.a00 * b.a00 + a.a01 * b.a10 + a.a02 * b.a20,
   a.a00 * b.a01 + a.a01 * b.a11 + a.a02 * b.a21,
   a.a00 * b.a02 + a.a01 * b.a12 + a.a02 * b.a22,
   a.a10 * b.a00 + a.a11 * b.a10 + a.a12 * b.a20,
   a.a10 * b.a01 + a.a11 * b.a11 + a.a12 * b.a21,
   a.a10 * b.a02 + a.a11 * b.a12 + a.a12 * b.a22,
   a.a20 * b.a00 + a.a21 * b.a10 + a.a22 * b.a20,
   a.a20 * b.a01 + a.a21 * b.a11 + a.a22 * b.a21,
   a.a20 * b.a02 + a.a21 * b.a12 + a.a22 * b.a22⟩

/-- 2×3 times 3×3 product (`np.matmul` also accepts this shape pair). -/
def mul23_33 (a : Mat23) (b : Mat33) : Mat23 :=
  ⟨a.a00 * b.a00 + a.a01 * b.a10 + a.a02 * b.a20,
   a.a00 * b.a01 + a.a01 * b.a11 + a.a02 * b.a21,
   a.a00 * b.a02 + a.a01 * b.a12 + a.a02 * b.a22,
   a.a10 * b.a00 + a.a11 * b.a10 + a.a12 * b.a20,
   a.a10 * b.a01 + a.a11 * b.a11 + a.a12 * b.a21,
   a.a10 * b.a02 + a.a11 * b.a12 + a.a12 * b.a22⟩

/-- `np.eye(3)` (line 40). -/
def eye3 : Mat33 := ⟨1, 0, 0, 0, 1, 0, 0, 0, 1⟩

/-- Python/numpy run-time failures that the program can raise.

Modelled from the spec: the `typedFatal` constructor represents the failure
shape demanded by the spec's error-handling design ("a typed failure carrying
the frame index and stage/reason", spec sections 4.2 and 7).  That failure
shape is not implemented anywhere in `src/`: the constructor exists only so
claims about it can be stated.  The source only ever produces the untyped
Python exceptions modelled by the other constructors. -/
inductive PyErr where
  | indexError
  | attributeError (msg : String)
  | valueError (msg : String)
  | typedFatal (frameIdx : ℕ) (reason : String)
deriving DecidableEq

/-- `np.matmul` on dynamically shaped operands (only the shape pairs that can
occur here): 3×3·3×3 and 2×3·3×3 succeed, anything else is a numpy shape
error. -/
def matmulPy : PyMat → PyMat → Except PyErr PyMat
  | .m33 a, .m33 b => .ok (.m33 (mul33 a b))
  | .m23 a, .m33 b => .ok (.m23 (mul23_33 a b))
  | _, _ => .error (.valueError "matmul: shape mismatch")

/-- The comparison key of line 58: `key=lambda x: x.distance`, ascending. -/
def distLe (a b : MatchRec) : Prop := a.distance ≤ b.distance

instance : DecidableRel distLe :=
  fun a b => inferInstanceAs (Decidable (a.distance ≤ b.distance))

instance : IsTotal MatchRec distLe := ⟨fun a b => le_total a.distance b.distance⟩

instance : IsTrans MatchRec distLe := ⟨fun _ _ _ h1 h2 => le_trans h1 h2⟩

/-- Line 58: `matches = sorted(matches, key=lambda x: x.distance)[:30]`
(Python's `sorted` is a stable comparison sort). -/
def truncSort (ms : List MatchRec) : List MatchRec :=
  (List.insertionSort distLe ms).take 30

/-- Line 54: `[m for m, n in pair_matches if m.distance < 0.7 * n.distance]`,
the ratio test over the k=2 nearest-neighbour pairs. -/
def ratioTest (pair_matches : List (MatchRec × MatchRec)) : List MatchRec :=
  (pair_matches.filter fun p => p.1.distance < (7 / 10 : ℚ) * p.2.distance).map Prod.fst

/-- The two detector families selected in `__init__` (lines 19-26). -/
inductive DetectorType where
  | sift
  | orb
deriving DecidableEq

/-- The external vision-primitive capabilities (cv2) the class depends on.
Each field models one library call the source makes; the core never inspects
their internals. -/
structure Externals where
  cvtColor : Frame → Frame
  detectAndCompute : Frame → List Pt × List Desc
  knnMatch : List Desc → List Desc → List (MatchRec × MatchRec)
  bfMatch : List Desc → List Desc → List MatchRec
  estimateAffine2D : List Pt → List Pt → Option Mat23
  findHomographyCV : List Pt → List Pt → Option Mat33
  warpAffine : Frame → Mat23 → ℕ → ℕ → (ℕ → ℕ → ℕ)
  warpPerspective : Frame → Mat33 → ℕ → ℕ → (ℕ → ℕ → ℕ)

/-- The raw match list of `VideMosaic.match` before sorting/truncation
(lines 52-56): ratio-test-filtered knn pairs for the SIFT family, direct
symmetric matches for the ORB family. -/
def rawMatches (ext : Externals) (dt : DetectorType) (des_cur des_prev : List Desc) :
    List MatchRec :=
  match dt with
  | .sift => ratioTest (ext.knnMatch des_cur des_prev)
  | .orb => ext.bfMatch des_cur des_prev

/-- `VideMosaic.match` (lines 50-59): produce raw matches for the detector
family, then sort ascending by distance and keep the best 30. -/
def matchFn (ext : Externals) (dt : DetectorType) (des_cur des_prev : List Desc) :
    List MatchRec :=
  truncSort (rawMatches ext dt des_cur des_prev)

/-- Lines 83-84: `[kp[m.idx].pt for m in matches]`.  Python list indexing
raises `IndexError` when an index is out of range. -/
def imagePoints (kps : List Pt) : List ℕ → Except PyErr (List Pt)
  | [] => Except.ok []
  | i :: is =>
    match kps.get? i, imagePoints kps is with
    | some p, Except.ok ps => Except.ok (p :: ps)
    | some _, Except.error e => Except.error e
    | none, _ => Except.error PyErr.indexError

/-- Lines 87-90: `displacements = image_2_points - image_1_points` followed by
`np.mean(displacements, axis=0)[0]`; componentwise mean of (previous point −
current point). -/
def meanDisplacement (image_1_points image_2_points : List Pt) : ℚ × ℚ :=
  let displacements :=
    List.zipWith (fun b a => (b.1 - a.1, b.2 - a.2)) image_2_points image_1_points
  ((displacements.map Prod.fst).sum / displacements.length,
   (displacements.map Prod.snd).sum / displacements.length)

/-- The dynamically shaped result of the selected robust fit. -/
inductive RawFit where
  | mat23 (a : Mat23)
  | mat33 (m : Mat33)
deriving DecidableEq

/-- Lines 93-101: dominant-motion dispatch.  Horizontal (`|dx| > |dy|*1.5`) and
vertical (`|dy| > |dx|*1.5`) motion both call `cv2.estimateAffine2D`; the
remaining (complex) case calls `cv2.findHomography`.  `none` models cv2
returning `None` when the robust fit produces no solution. -/
def selectRawFit (fa : List Pt → List Pt → Option Mat23)
    (fp : List Pt → List Pt → Option Mat33)
    (image_1_points image_2_points : List Pt) : Option RawFit :=
  let dxy := meanDisplacement image_1_points image_2_points
  if |dxy.1| > |dxy.2| * (3 / 2 : ℚ) then
    (fa image_1_points image_2_points).map RawFit.mat23
  else if |dxy.2| > |dxy.1| * (3 / 2 : ℚ) then
    (fa image_1_points image_2_points).map RawFit.mat23
  else
    (fp image_1_points image_2_points).map RawFit.mat33

/-- Forget the fit provenance, keeping only the dynamically shaped matrix. -/
def RawFit.toPyMat : RawFit → PyMat
  | .mat23 a => .m23 a
  | .mat33 m => .m33 m

/-- Lines 104-105: `if transform_matrix.shape == (2, 3): transform_matrix =
np.vstack([transform_matrix, [0, 0, 1]])`. -/
def normalize3x3 : PyMat → PyMat
  | .m23 a => .m33 (vstack001 a)
  | .m33 m => .m33 m

/-- Lines 93-107 as one step: run the selected robust fit and normalize to
3×3.  A failed fit (cv2 returning `None`) surfaces as the `AttributeError`
raised by reading `transform_matrix.shape` on line 104. -/
def fitAndNormalize (fa : List Pt → List Pt → Option Mat23)
    (fp : List Pt → List Pt → Option Mat33)
    (image_1_points image_2_points : List Pt) : Except PyErr PyMat :=
  match selectRawFit fa fp image_1_points image_2_points with
  | none =>
      Except.error (PyErr.attributeError "NoneType object has no attribute shape")
  | some r => Except.ok (normalize3x3 r.toPyMat)

/-- `VideMosaic.findHomography` (lines 79-107): gather the matched point
coordinates of both frames, then fit and normalize. -/
def findHomographyE (fa : List Pt → List Pt → Option Mat23)
    (fp : List Pt → List Pt → Option Mat33)
    (image_1_kp image_2_kp : List Pt) (ms : List MatchRec) :
    Except PyErr PyMat :=
  match imagePoints image_1_kp (ms.map MatchRec.queryIdx),
        imagePoints image_2_kp (ms.map MatchRec.trainIdx) with
  | Except.error e, _ => Except.error e
  | Except.ok _, Except.error e => Except.error e
  | Except.ok image_1_points, Except.ok image_2_points =>
    fitAndNormalize fa fp image_1_points image_2_points

/-- Line 120: `self.output_img[warped_img > 0] = warped_img[warped_img > 0]`:
elementwise, a positive warped pixel overwrites the canvas pixel, a zero
(background) warped pixel leaves the canvas pixel alone. -/
def merge (canvas warped : ℕ → ℕ → ℕ) : ℕ → ℕ → ℕ := fun i j =>
  if 0 < warped i j then warped i j else canvas i j

/-- Which resampling branch `VideMosaic.warp` takes. -/
inductive WarpKind where
  | affineWarp
  | perspectiveWarp
deriving DecidableEq

/-- The shape dispatch of line 111: `if H.shape == (2, 3)` selects
`cv2.warpAffine`, otherwise `cv2.warpPerspective`. -/
def warpKind : PyMat → WarpKind
  | .m23 _ => .affineWarp
  | .m33 _ => .perspectiveWarp

/-- `VideMosaic.warp` (lines 109-121): resample the frame into canvas space by
the branch `warpKind` picks, then merge non-background pixels into the canvas.
Returns the updated canvas pixels. -/
def warp (ext : Externals) (output_img : Frame) (frame_cur : Frame) (H : PyMat) :
    ℕ → ℕ → ℕ :=
  let warped_img :=
    match H with
    | .m23 a => ext.warpAffine frame_cur a output_img.w output_img.h
    | .m33 m => ext.warpPerspective frame_cur m output_img.w output_img.h
  merge output_img.px warped_img

/-- The instance fields of `VideMosaic` that persist across `process_frame`
calls: cumulative pose `H_old`, the canvas `output_img`, the previous frame's
keypoints/descriptors/pixels, and the current-frame scratch fields that the
Python code also stores on `self` (lines 63-65). -/
structure MosaicState where
  H_old : PyMat
  output_img : Frame
  kp_prev : List Pt
  des_prev : List Desc
  frame_prev : Frame
  frame_cur : Frame
  kp_cur : List Pt
  des_cur : List Desc

/-- `VideMosaic.process_frame` (lines 61-77): extract features, match against
the previous descriptors, skip (early return) when fewer than 4 matches,
otherwise estimate the incremental transform, chain it onto the cumulative
pose, warp-and-merge into the canvas, and roll current state into the
previous slots. -/
def process_frame (ext : Externals) (dt : DetectorType) (s : MosaicState)
    (frame_cur : Frame) : Except PyErr MosaicState :=
  let frame_gray_cur := ext.cvtColor frame_cur
  let kd := ext.detectAndCompute frame_gray_cur
  let s1 : MosaicState := { s with frame_cur := frame_cur, kp_cur := kd.1, des_cur := kd.2 }
  let ms := matchFn ext dt kd.2 s.des_prev
  if ms.length < 4 then Except.ok s1
  else
    match findHomographyE ext.estimateAffine2D ext.findHomographyCV kd.1 s.kp_prev ms with
    | Except.error e => Except.error e
    | Except.ok Hinc =>
      match matmulPy s1.H_old Hinc with
      | Except.error e => Except.error e
      | Except.ok H =>
        Except.ok { s1 with
          H_old := H,
          output_img := { s1.output_img with px := warp ext s1.output_img frame_cur H },
          kp_prev := kd.1, des_prev := kd.2, frame_prev := frame_cur }

/-- Python `int(...)` on a float: truncation toward zero. -/
def pyInt (q : ℚ) : ℤ := if 0 ≤ q then ⌊q⌋ else -⌊-q⌋

/-- The initialization state built by `VideMosaic.__init__` (lines 31-42):
the allocated canvas (already seeded with the first frame), the channel
count, the two offsets, and the initial cumulative pose. -/
structure InitResult where
  output_img : Frame
  channels : ℕ
  w_offset : ℤ
  h_offset : ℤ
  H_old : PyMat

/-- Lines 37-38: write the first frame into the zero-initialized canvas at
vertical offset `wOff` and horizontal offset `hOff` (both nonnegative in every
configuration the program constructs). -/
def seedCanvas (cH cW : ℕ) (wOff hOff : ℕ) (first : Frame) : Frame :=
  { h := cH, w := cW,
    px := fun i j =>
      if wOff ≤ i ∧ i < wOff + first.h ∧ hOff ≤ j ∧ j < hOff + first.w then
        first.px (i - wOff) (j - hOff)
      else 0 }

/-- The canvas/offset/pose part of `VideMosaic.__init__` (lines 31-42):
allocate a canvas of `int(output_height_times*h) × int(output_width_times*w)`,
compute `w_offset = int(canvasH/1 - h/1)` and `h_offset = int(canvasW/2 - w/2)`,
seed the canvas with the first frame at that offset, and set the initial pose
to the identity with translation column `(h_offset, w_offset)`. -/
def initMosaic (first : Frame) (channels : ℕ)
    (output_height_times output_width_times : ℚ) : InitResult :=
  let cH := (pyInt (output_height_times * first.h)).toNat
  let cW := (pyInt (output_width_times * first.w)).toNat
  let wOff := pyInt ((cH : ℚ) / 1 - (first.h : ℚ) / 1)
  let hOff := pyInt ((cW : ℚ) / 2 - (first.w : ℚ) / 2)
  { output_img := seedCanvas cH cW wOff.toNat hOff.toNat first,
    channels := channels,
    w_offset := wOff,
    h_offset := hOff,
    H_old := .m33 { eye3 with a02 := (hOff : ℚ), a12 := (wOff : ℚ) } }

/-- The result `findHomography` yields when the classifier picked the affine
family: a failing fit raises, a successful 2×3 fit is promoted to 3×3. -/
def affineFitResult : Option Mat23 → Except PyErr PyMat
  | none => Except.error (PyErr.attributeError "NoneType object has no attribute shape")
  | some a => Except.ok (PyMat.m33 (vstack001 a))

/-- The result `findHomography` yields when the classifier picked the
projective family: a failing fit raises, a successful 3×3 fit is returned
as-is. -/
def projectiveFitResult : Option Mat33 → Except PyErr PyMat
  | none => Except.error (PyErr.attributeError "NoneType object has no attribute shape")
  | some m => Except.ok (PyMat.m33 m)

/-- Whether an error value carries a failing-frame index (only the spec's
`typedFatal` shape does). -/
def carriesFrameIndex : PyErr → Bool
  | .typedFatal _ _ => true
  | _ => false

/-- Concrete 2×2 frame used to exercise the embedding on closed inputs. -/
def frame0 : Frame := ⟨2, 2, fun _ _ => 1⟩

/-- Concrete keypoint locations. -/
def kpC : List Pt := [(0, 0), (1, 0), (0, 1), (1, 1)]

/-- Concrete descriptors matching `kpC` in cardinality. -/
def desC : List Desc := [[1], [2], [3], [4]]

/-- Concrete knn pairs: each best distance 1 against second-best 10, so every
pair passes the 0.7 ratio test. -/
def pairsC : List (MatchRec × MatchRec) :=
  [(⟨0, 0, 1⟩, ⟨0, 0, 10⟩), (⟨1, 1, 1⟩, ⟨1, 1, 10⟩),
   (⟨2, 2, 1⟩, ⟨2, 2, 10⟩), (⟨3, 3, 1⟩, ⟨3, 3, 10⟩)]

/-- A concrete affine fit result. -/
def aC : Mat23 := ⟨1, 0, 5, 0, 1, 6⟩

/-- A concrete projective fit result. -/
def hC : Mat33 := ⟨1, 0, 7, 0, 1, 8, 0, 0, 1⟩

/-- Concrete externals on which every stage succeeds. -/
def extOK : Externals :=
  { cvtColor := id,
    detectAndCompute := fun _ => (kpC, desC),
    knnMatch := fun _ _ => pairsC,
    bfMatch := fun _ _ => [],
    estimateAffine2D := fun _ _ => some aC,
    findHomographyCV := fun _ _ => some hC,
    warpAffine := fun _ _ _ _ _ _ => 0,
    warpPerspective := fun _ _ _ _ _ _ => 0 }

/-- Externals whose robust fitters both fail (cv2 returning `None`). -/
def extFail : Externals :=
  { extOK with estimateAffine2D := fun _ _ => none, findHomographyCV := fun _ _ => none }

/-- Externals whose matcher finds nothing. -/
def extNoMatch : Externals := { extOK with knnMatch := fun _ _ => [] }

/-- Externals whose feature extraction finds zero keypoints. -/
def extEmpty : Externals :=
  { extOK with
    detectAndCompute := fun _ => ([], [])
    knnMatch := fun _ _ => []
    bfMatch := fun _ _ => [] }

/-- 31 raw matches with strictly increasing distances, to exercise truncation. -/
def matches31 : List MatchRec := (List.range 31).map fun i => ⟨i, i, (i : ℚ)⟩

/-- Externals whose symmetric matcher returns the 31 concrete raw matches. -/
def extOrb : Externals := { extOK with bfMatch := fun _ _ => matches31 }

/-- A concrete controller state with identity cumulative pose. -/
def s0 : MosaicState :=
  { H_old := .m33 eye3,
    output_img := ⟨6, 6, fun _ _ => 0⟩,
    kp_prev := kpC,
    des_prev := desC,
    frame_prev := frame0,
    frame_cur := frame0,
    kp_cur := [],
    des_cur := [] }

/-- Helper: when fewer than 4 matches are found, `process_frame` returns
early, touching only the current-frame scratch fields. -/
theorem process_frame_skip (ext : Externals) (dt : DetectorType) (s : MosaicState)
    (frame_cur : Frame)
    (h : (matchFn ext dt (ext.detectAndCompute (ext.cvtColor frame_cur)).2 s.des_prev).length < 4) :
    process_frame ext dt s frame_cur = Except.ok
      { s with
        frame_cur := frame_cur
        kp_cur := (ext.detectAndCompute (ext.cvtColor frame_cur)).1
        des_cur := (ext.detectAndCompute (ext.cvtColor frame_cur)).2 } := by
  simp only [process_frame]
  rw [if_pos h]

/-- Claim C1: for every frame whose descriptor matching against the previous
frame yields fewer than 4 matches, `process_frame` leaves the cumulative pose
`H_old`, the canvas `output_img`, and the retained previous keypoints,
descriptors and frame all unchanged, and raises no error: the frame is
silently skipped. -/
theorem c1_skip_on_few_matches (ext : Externals) (dt : DetectorType) (s : MosaicState)
    (frame_cur : Frame)
    (h : (matchFn ext dt (ext.detectAndCompute (ext.cvtColor frame_cur)).2 s.des_prev).length < 4) :
    ∃ s', process_frame ext dt s frame_cur = Except.ok s' ∧
      s'.H_old = s.H_old ∧ s'.output_img = s.output_img ∧
      s'.kp_prev = s.kp_prev ∧ s'.des_prev = s.des_prev ∧ s'.frame_prev = s.frame_prev :=
  ⟨_, process_frame_skip ext dt s frame_cur h, rfl, rfl, rfl, rfl, rfl⟩

/-- Witness for C1: a concrete state and frame producing 0 matches is skipped
with pose, canvas and previous state intact. -/
theorem c1_skip_on_few_matches_w :
    ∃ s', process_frame extNoMatch DetectorType.sift s0 frame0 = Except.ok s' ∧
      s'.H_old = s0.H_old ∧ s'.output_img = s0.output_img ∧
      s'.kp_prev = s0.kp_prev ∧ s'.des_prev = s0.des_prev ∧ s'.frame_prev = s0.frame_prev :=
  c1_skip_on_few_matches extNoMatch DetectorType.sift s0 frame0 (by decide)

/-- Claim C8: a frame on which feature extraction yields zero keypoints (an
empty keypoint/descriptor set, with the matcher consequently producing no
matches on an empty query set) is treated exactly like the
insufficient-matches condition: no state update and no error. -/
theorem c8_skip_on_zero_keypoints (ext : Externals) (dt : DetectorType) (s : MosaicState)
    (frame_cur : Frame)
    (hkd : ext.detectAndCompute (ext.cvtColor frame_cur) = ([], []))
    (hknn : ext.knnMatch [] s.des_prev = [])
    (hbf : ext.bfMatch [] s.des_prev = []) :
    ∃ s', process_frame ext dt s frame_cur = Except.ok s' ∧
      s'.H_old = s.H_old ∧ s'.output_img = s.output_img ∧
      s'.kp_prev = s.kp_prev ∧ s'.des_prev = s.des_prev ∧ s'.frame_prev = s.frame_prev := by
  have hlen :
      (matchFn ext dt (ext.detectAndCompute (ext.cvtColor frame_cur)).2 s.des_prev).length < 4 := by
    rw [hkd]
    cases dt with
    | sift => simp [matchFn, rawMatches, ratioTest, truncSort, hknn, List.insertionSort]
    | orb => simp [matchFn, rawMatches, truncSort, hbf, List.insertionSort]
  exact ⟨_, process_frame_skip ext dt s frame_cur hlen, rfl, rfl, rfl, rfl, rfl⟩

/-- Witness for C8: concrete externals extracting zero keypoints lead to a
silent skip with all retained state unchanged. -/
theorem c8_skip_on_zero_keypoints_w :
    ∃ s', process_frame extEmpty DetectorType.sift s0 frame0 = Except.ok s' ∧
      s'.H_old = s0.H_old ∧ s'.output_img = s0.output_img ∧
      s'.kp_prev = s0.kp_prev ∧ s'.des_prev = s0.des_prev ∧ s'.frame_prev = s0.frame_prev :=
  c8_skip_on_zero_keypoints extEmpty DetectorType.sift s0 frame0 rfl rfl rfl

/-- Helper: anatomy of a successful fit-and-normalize: the selected robust fit
returned a matrix, and the result is that matrix normalized to 3×3 (a 2×3
affine fit promoted with bottom row `[0,0,1]`, a 3×3 projective fit kept
as-is). -/
theorem fitAndNormalize_ok_shape {fa : List Pt → List Pt → Option Mat23}
    {fp : List Pt → List Pt → Option Mat33} {p1 p2 : List Pt} {M : PyMat}
    (h : fitAndNormalize fa fp p1 p2 = Except.ok M) :
    ∃ m : Mat33, M = PyMat.m33 m ∧
      ((∃ a : Mat23, selectRawFit fa fp p1 p2 = some (RawFit.mat23 a) ∧
          m = vstack001 a ∧ m.a20 = 0 ∧ m.a21 = 0 ∧ m.a22 = 1) ∨
        selectRawFit fa fp p1 p2 = some (RawFit.mat33 m)) := by
  unfold fitAndNormalize at h
  cases hs : selectRawFit fa fp p1 p2 with
  | none => rw [hs] at h; exact absurd h (by simp)
  | some r =>
    rw [hs] at h
    cases r with
    | mat23 a =>
      refine ⟨vstack001 a, ?_, Or.inl ⟨a, rfl, rfl, rfl, rfl, rfl⟩⟩
      simpa [RawFit.toPyMat, normalize3x3] using h.symm
    | mat33 m =>
      refine ⟨m, ?_, Or.inr rfl⟩
      simpa [RawFit.toPyMat, normalize3x3] using h.symm

/-- Helper: anatomy of a successful `findHomography` run: both point gathers
succeed and the result is the selected fit normalized to 3×3. -/
theorem findHomographyE_ok_shape {fa : List Pt → List Pt → Option Mat23}
    {fp : List Pt → List Pt → Option Mat33} {kp1 kp2 : List Pt} {ms : List MatchRec}
    {M : PyMat} (h : findHomographyE fa fp kp1 kp2 ms = Except.ok M) :
    ∃ p1 p2, imagePoints kp1 (ms.map MatchRec.queryIdx) = Except.ok p1 ∧
      imagePoints kp2 (ms.map MatchRec.trainIdx) = Except.ok p2 ∧
      ∃ m : Mat33, M = PyMat.m33 m ∧
        ((∃ a : Mat23, selectRawFit fa fp p1 p2 = some (RawFit.mat23 a) ∧
            m = vstack001 a ∧ m.a20 = 0 ∧ m.a21 = 0 ∧ m.a22 = 1) ∨
          selectRawFit fa fp p1 p2 = some (RawFit.mat33 m)) := by
  unfold findHomographyE at h
  cases h1 : imagePoints kp1 (ms.map MatchRec.queryIdx) with
  | error e => rw [h1] at h; exact absurd h (by simp)
  | ok p1 =>
    cases h2 : imagePoints kp2 (ms.map MatchRec.trainIdx) with
    | error e => rw [h1, h2] at h; exact absurd h (by simp)
    | ok p2 =>
      rw [h1, h2] at h
      exact ⟨p1, p2, rfl, rfl, fitAndNormalize_ok_shape h⟩

/-- Helper: every matrix `findHomography` returns is tagged 3×3. -/
theorem findHomographyE_ok_m33 {fa : List Pt → List Pt → Option Mat23}
    {fp : List Pt → List Pt → Option Mat33} {kp1 kp2 : List Pt} {ms : List MatchRec}
    {M : PyMat} (h : findHomographyE fa fp kp1 kp2 ms = Except.ok M) :
    ∃ m : Mat33, M = PyMat.m33 m := by
  obtain ⟨_, _, _, _, m, hm, _⟩ := findHomographyE_ok_shape h
  exact ⟨m, hm⟩

/-- Claim C5: every transform the estimator returns is a 3×3 matrix: a 2×3
affine fit is promoted by appending the row `[0,0,1]` (so its bottom row is
exactly `[0,0,1]`), and a projective fit is returned as-is. -/
theorem c5_result_always_3x3 {fa : List Pt → List Pt → Option Mat23}
    {fp : List Pt → List Pt → Option Mat33} {kp1 kp2 : List Pt} {ms : List MatchRec}
    {M : PyMat} (h : findHomographyE fa fp kp1 kp2 ms = Except.ok M) :
    ∃ p1 p2, imagePoints kp1 (ms.map MatchRec.queryIdx) = Except.ok p1 ∧
      imagePoints kp2 (ms.map MatchRec.trainIdx) = Except.ok p2 ∧
      ∃ m : Mat33, M = PyMat.m33 m ∧
        ((∃ a : Mat23, selectRawFit fa fp p1 p2 = some (RawFit.mat23 a) ∧
            m = vstack001 a ∧ m.a20 = 0 ∧ m.a21 = 0 ∧ m.a22 = 1) ∨
          selectRawFit fa fp p1 p2 = some (RawFit.mat33 m)) :=
  findHomographyE_ok_shape h

/-- Witness for C5: a concrete successful affine-path run returns the promoted
3×3 matrix with bottom row `[0,0,1]`. -/
theorem c5_result_always_3x3_w :
    ∃ p1 p2,
      imagePoints [((0 : ℚ), (0 : ℚ))] (([⟨0, 0, 1⟩] : List MatchRec).map MatchRec.queryIdx) =
        Except.ok p1 ∧
      imagePoints [((10 : ℚ), (5 : ℚ))] (([⟨0, 0, 1⟩] : List MatchRec).map MatchRec.trainIdx) =
        Except.ok p2 ∧
      ∃ m : Mat33, PyMat.m33 (vstack001 aC) = PyMat.m33 m ∧
        ((∃ a : Mat23,
            selectRawFit (fun _ _ => some aC) (fun _ _ => none) p1 p2 =
              some (RawFit.mat23 a) ∧
            m = vstack001 a ∧ m.a20 = 0 ∧ m.a21 = 0 ∧ m.a22 = 1) ∨
          selectRawFit (fun _ _ => some aC) (fun _ _ => none) p1 p2 =
            some (RawFit.mat33 m)) :=
  c5_result_always_3x3 (by
    have hsel : selectRawFit (fun _ _ => some aC) (fun _ _ => none)
        [((0 : ℚ), (0 : ℚ))] [((10 : ℚ), (5 : ℚ))] = some (RawFit.mat23 aC) := by
      norm_num [selectRawFit, meanDisplacement]
    show fitAndNormalize (fun _ _ => some aC) (fun _ _ => none)
        [((0 : ℚ), (0 : ℚ))] [((10 : ℚ), (5 : ℚ))] =
      Except.ok (PyMat.m33 (vstack001 aC))
    unfold fitAndNormalize
    rw [hsel]
    rfl)

/-- Helper: a successful point gather returns one point per index. -/
theorem imagePoints_length {kps : List Pt} : ∀ {idxs : List ℕ} {ps : List Pt},
    imagePoints kps idxs = Except.ok ps → ps.length = idxs.length := by
  intro idxs
  induction idxs with
  | nil =>
    intro ps h
    simp only [imagePoints] at h
    cases h
    rfl
  | cons i is ih =>
    intro ps h
    unfold imagePoints at h
    cases hg : kps.get? i with
    | none => rw [hg] at h; exact absurd h (by simp)
    | some p =>
      rw [hg] at h
      cases hr : imagePoints kps is with
      | error e => rw [hr] at h; exact absurd h (by simp)
      | ok ps' =>
        rw [hr] at h
        have hps : p :: ps' = ps := by simpa using h
        rw [← hps]
        simp [ih hr]

/-- Helper: `findHomography` with both point gathers known reduces to
fit-and-normalize on the gathered points. -/
theorem findHomographyE_points {fa : List Pt → List Pt → Option Mat23}
    {fp : List Pt → List Pt → Option Mat33} {kp1 kp2 : List Pt} {ms : List MatchRec}
    {p1 p2 : List Pt}
    (h1 : imagePoints kp1 (ms.map MatchRec.queryIdx) = Except.ok p1)
    (h2 : imagePoints kp2 (ms.map MatchRec.trainIdx) = Except.ok p2) :
    findHomographyE fa fp kp1 kp2 ms = fitAndNormalize fa fp p1 p2 := by
  unfold findHomographyE
  rw [h1, h2]

/-- Helper: horizontal-dominant mean displacement selects the affine fitter. -/
theorem selectRawFit_hor {fa : List Pt → List Pt → Option Mat23}
    {fp : List Pt → List Pt → Option Mat33} {p1 p2 : List Pt}
    (hc : |(meanDisplacement p1 p2).1| > |(meanDisplacement p1 p2).2| * (3 / 2)) :
    selectRawFit fa fp p1 p2 = (fa p1 p2).map RawFit.mat23 := by
  simp only [selectRawFit]
  rw [if_pos hc]

/-- Helper: vertical-dominant mean displacement also selects the affine
fitter. -/
theorem selectRawFit_ver {fa : List Pt → List Pt → Option Mat23}
    {fp : List Pt → List Pt → Option Mat33} {p1 p2 : List Pt}
    (hc1 : ¬ |(meanDisplacement p1 p2).1| > |(meanDisplacement p1 p2).2| * (3 / 2))
    (hc2 : |(meanDisplacement p1 p2).2| > |(meanDisplacement p1 p2).1| * (3 / 2)) :
    selectRawFit fa fp p1 p2 = (fa p1 p2).map RawFit.mat23 := by
  simp only [selectRawFit]
  rw [if_neg hc1, if_pos hc2]

/-- Helper: a mean displacement dominant in neither axis selects the
projective fitter. -/
theorem selectRawFit_complex {fa : List Pt → List Pt → Option Mat23}
    {fp : List Pt → List Pt → Option Mat33} {p1 p2 : List Pt}
    (hc1 : ¬ |(meanDisplacement p1 p2).1| > |(meanDisplacement p1 p2).2| * (3 / 2))
    (hc2 : ¬ |(meanDisplacement p1 p2).2| > |(meanDisplacement p1 p2).1| * (3 / 2)) :
    selectRawFit fa fp p1 p2 = (fp p1 p2).map RawFit.mat33 := by
  simp only [selectRawFit]
  rw [if_neg hc1, if_neg hc2]

/-- Helper: with the affine fitter selected, fit-and-normalize produces the
affine-path result. -/
theorem fitAndNormalize_affine {fa : List Pt → List Pt → Option Mat23}
    {fp : List Pt → List Pt → Option Mat33} {p1 p2 : List Pt}
    (hsel : selectRawFit fa fp p1 p2 = (fa p1 p2).map RawFit.mat23) :
    fitAndNormalize fa fp p1 p2 = affineFitResult (fa p1 p2) := by
  unfold fitAndNormalize
  rw [hsel]
  cases fa p1 p2 with
  | none => rfl
  | some a => rfl

/-- Helper: with the projective fitter selected, fit-and-normalize produces
the projective-path result. -/
theorem fitAndNormalize_proj {fa : List Pt → List Pt → Option Mat23}
    {fp : List Pt → List Pt → Option Mat33} {p1 p2 : List Pt}
    (hsel : selectRawFit fa fp p1 p2 = (fp p1 p2).map RawFit.mat33) :
    fitAndNormalize fa fp p1 p2 = projectiveFitResult (fp p1 p2) := by
  unfold fitAndNormalize
  rw [hsel]
  cases fp p1 p2 with
  | none => rfl
  | some m => rfl

/-- Claim C2: the estimator computes per-match displacement (previous point −
current point), takes its mean `(dx, dy)`, classifies horizontal-dominant when
`|dx| > 1.5·|dy|` and vertical-dominant when `|dy| > 1.5·|dx|` (fitting a
robust affine transform in both cases), and otherwise classifies complex and
fits a robust projective transform; in particular mean displacement `(10, 5)`
takes the affine path and `(10, 7)` the projective path. -/
theorem c2_classifier_dispatch (fa : List Pt → List Pt → Option Mat23)
    (fp : List Pt → List Pt → Option Mat33) (kp1 kp2 : List Pt) (ms : List MatchRec)
    (p1 p2 : List Pt) (_hne : ms ≠ [])
    (h1 : imagePoints kp1 (ms.map MatchRec.queryIdx) = Except.ok p1)
    (h2 : imagePoints kp2 (ms.map MatchRec.trainIdx) = Except.ok p2) :
    meanDisplacement p1 p2 =
      ((List.zipWith (fun b a => b.1 - a.1) p2 p1).sum / (ms.length : ℚ),
       (List.zipWith (fun b a => b.2 - a.2) p2 p1).sum / (ms.length : ℚ)) ∧
    (|(meanDisplacement p1 p2).1| > |(meanDisplacement p1 p2).2| * (3 / 2) →
      findHomographyE fa fp kp1 kp2 ms = affineFitResult (fa p1 p2)) ∧
    (¬ |(meanDisplacement p1 p2).1| > |(meanDisplacement p1 p2).2| * (3 / 2) →
      |(meanDisplacement p1 p2).2| > |(meanDisplacement p1 p2).1| * (3 / 2) →
      findHomographyE fa fp kp1 kp2 ms = affineFitResult (fa p1 p2)) ∧
    (¬ |(meanDisplacement p1 p2).1| > |(meanDisplacement p1 p2).2| * (3 / 2) →
      ¬ |(meanDisplacement p1 p2).2| > |(meanDisplacement p1 p2).1| * (3 / 2) →
      findHomographyE fa fp kp1 kp2 ms = projectiveFitResult (fp p1 p2)) ∧
    selectRawFit fa fp [((0 : ℚ), (0 : ℚ))] [((10 : ℚ), (5 : ℚ))] =
      (fa [((0 : ℚ), (0 : ℚ))] [((10 : ℚ), (5 : ℚ))]).map RawFit.mat23 ∧
    selectRawFit fa fp [((0 : ℚ), (0 : ℚ))] [((10 : ℚ), (7 : ℚ))] =
      (fp [((0 : ℚ), (0 : ℚ))] [((10 : ℚ), (7 : ℚ))]).map RawFit.mat33 := by
  have l1 : p1.length = ms.length := by simpa using imagePoints_length h1
  have l2 : p2.length = ms.length := by simpa using imagePoints_length h2
  refine ⟨?_, ?_, ?_, ?_, ?_, ?_⟩
  · have hzlen :
        (List.zipWith (fun b a => (b.1 - a.1, b.2 - a.2)) p2 p1).length = ms.length := by
      rw [List.length_zipWith, l1, l2, min_self]
    simp only [meanDisplacement, List.map_zipWith, hzlen]
  · intro hc
    rw [findHomographyE_points h1 h2, fitAndNormalize_affine (selectRawFit_hor hc)]
  · intro hc1 hc2
    rw [findHomographyE_points h1 h2, fitAndNormalize_affine (selectRawFit_ver hc1 hc2)]
  · intro hc1 hc2
    rw [findHomographyE_points h1 h2, fitAndNormalize_proj (selectRawFit_complex hc1 hc2)]
  · exact selectRawFit_hor (by norm_num [meanDisplacement])
  · exact selectRawFit_complex (by norm_num [meanDisplacement])
      (by norm_num [meanDisplacement])

/-- Witness for C2: one concrete match with mean displacement `(10, 5)` takes
the affine path, one with mean displacement `(10, 7)` takes the projective
path (even when the affine fitter would fail). -/
theorem c2_classifier_dispatch_w :
    findHomographyE (fun _ _ => some aC) (fun _ _ => none)
        [((0 : ℚ), (0 : ℚ))] [((10 : ℚ), (5 : ℚ))] [⟨0, 0, 1⟩] =
      affineFitResult (some aC) ∧
    findHomographyE (fun _ _ => none) (fun _ _ => some hC)
        [((0 : ℚ), (0 : ℚ))] [((10 : ℚ), (7 : ℚ))] [⟨0, 0, 1⟩] =
      projectiveFitResult (some hC) := by
  constructor
  · have h := c2_classifier_dispatch (fun _ _ => some aC) (fun _ _ => none)
      [((0 : ℚ), (0 : ℚ))] [((10 : ℚ), (5 : ℚ))] [⟨0, 0, 1⟩]
      [((0 : ℚ), (0 : ℚ))] [((10 : ℚ), (5 : ℚ))] (by simp) rfl rfl
    exact h.2.1 (by norm_num [meanDisplacement])
  · have h := c2_classifier_dispatch (fun _ _ => none) (fun _ _ => some hC)
      [((0 : ℚ), (0 : ℚ))] [((10 : ℚ), (7 : ℚ))] [⟨0, 0, 1⟩]
      [((0 : ℚ), (0 : ℚ))] [((10 : ℚ), (7 : ℚ))] (by simp) rfl rfl
    exact h.2.2.2.1 (by norm_num [meanDisplacement]) (by norm_num [meanDisplacement])

/-- Claim C4: `match` returns the raw matches sorted ascending by distance and
truncated to at most 30 entries; when the raw list is longer than 30, the
retained subset is exactly the 30 lowest-distance entries: 30 are kept, kept
plus dropped is a permutation of the raw list, and every kept distance is at
most every dropped distance. -/
theorem c4_match_truncation (ext : Externals) (dt : DetectorType)
    (des_cur des_prev : List Desc) :
    List.Sorted distLe (matchFn ext dt des_cur des_prev) ∧
    (matchFn ext dt des_cur des_prev).length ≤ 30 ∧
    (30 < (rawMatches ext dt des_cur des_prev).length →
      (matchFn ext dt des_cur des_prev).length = 30 ∧
      ∃ rest : List MatchRec,
        (matchFn ext dt des_cur des_prev ++ rest).Perm (rawMatches ext dt des_cur des_prev) ∧
        ∀ a ∈ matchFn ext dt des_cur des_prev, ∀ b ∈ rest, a.distance ≤ b.distance) := by
  have hsorted : List.Sorted distLe (List.insertionSort distLe (rawMatches ext dt des_cur des_prev)) :=
    List.sorted_insertionSort distLe (rawMatches ext dt des_cur des_prev)
  refine ⟨?_, ?_, ?_⟩
  · exact hsorted.sublist (List.take_sublist 30 _)
  · simp [matchFn, truncSort]
  · intro hlong
    have hlen : (matchFn ext dt des_cur des_prev).length = 30 := by
      simp only [matchFn, truncSort, List.length_take, List.length_insertionSort]
      omega
    refine ⟨hlen, (List.insertionSort distLe (rawMatches ext dt des_cur des_prev)).drop 30,
      ?_, ?_⟩
    · show (truncSort (rawMatches ext dt des_cur des_prev) ++ _).Perm _
      rw [truncSort, List.take_append_drop]
      exact List.perm_insertionSort distLe _
    · intro a ha b hb
      have hcross := List.pairwise_append.mp
        (by rw [List.take_append_drop 30
          (List.insertionSort distLe (rawMatches ext dt des_cur des_prev))]; exact hsorted)
      exact hcross.2.2 a ha b hb

/-- Witness for C4: 31 concrete raw matches are truncated to exactly 30. -/
theorem c4_match_truncation_w :
    30 < (rawMatches extOrb DetectorType.orb [] []).length ∧
    (matchFn extOrb DetectorType.orb [] []).length = 30 :=
  ⟨by decide, ((c4_match_truncation extOrb DetectorType.orb [] []).2.2 (by decide)).1⟩

/-- Helper: the applied (non-skip) path of `process_frame`: with at least 4
matches, a successful estimate, and a 3×3 stored pose, the new state chains
the pose, merges the perspective-warped frame, and rolls state forward. -/
theorem process_frame_applied (ext : Externals) (dt : DetectorType) (s : MosaicState)
    (frame_cur : Frame) {Hinc : PyMat} {A B : Mat33}
    (hm : ¬ (matchFn ext dt (ext.detectAndCompute (ext.cvtColor frame_cur)).2 s.des_prev).length < 4)
    (hfit : findHomographyE ext.estimateAffine2D ext.findHomographyCV
        (ext.detectAndCompute (ext.cvtColor frame_cur)).1 s.kp_prev
        (matchFn ext dt (ext.detectAndCompute (ext.cvtColor frame_cur)).2 s.des_prev) =
      Except.ok Hinc)
    (hA : s.H_old = PyMat.m33 A) (hB : Hinc = PyMat.m33 B) :
    process_frame ext dt s frame_cur = Except.ok
      { H_old := PyMat.m33 (mul33 A B),
        output_img := { s.output_img with
          px := warp ext s.output_img frame_cur (PyMat.m33 (mul33 A B)) },
        kp_prev := (ext.detectAndCompute (ext.cvtColor frame_cur)).1,
        des_prev := (ext.detectAndCompute (ext.cvtColor frame_cur)).2,
        frame_prev := frame_cur,
        frame_cur := frame_cur,
        kp_cur := (ext.detectAndCompute (ext.cvtColor frame_cur)).1,
        des_cur := (ext.detectAndCompute (ext.cvtColor frame_cur)).2 } := by
  subst hB
  simp only [process_frame]
  rw [if_neg hm, hfit]
  dsimp only
  rw [hA]
  rfl

/-- Claim C3: for every successfully processed frame, the new cumulative pose
equals the matrix product of the previous cumulative pose (left) with the
newly estimated incremental transform (right), and this product becomes the
stored `H_old`. -/
theorem c3_pose_chain (ext : Externals) (dt : DetectorType) (s : MosaicState)
    (frame_cur : Frame) {Hinc : PyMat} {A B : Mat33}
    (hm : ¬ (matchFn ext dt (ext.detectAndCompute (ext.cvtColor frame_cur)).2 s.des_prev).length < 4)
    (hfit : findHomographyE ext.estimateAffine2D ext.findHomographyCV
        (ext.detectAndCompute (ext.cvtColor frame_cur)).1 s.kp_prev
        (matchFn ext dt (ext.detectAndCompute (ext.cvtColor frame_cur)).2 s.des_prev) =
      Except.ok Hinc)
    (hA : s.H_old = PyMat.m33 A) (hB : Hinc = PyMat.m33 B) :
    ∃ s', process_frame ext dt s frame_cur = Except.ok s' ∧
      matmulPy s.H_old Hinc = Except.ok (PyMat.m33 (mul33 A B)) ∧
      s'.H_old = PyMat.m33 (mul33 A B) := by
  refine ⟨_, process_frame_applied ext dt s frame_cur hm hfit hA hB, ?_, rfl⟩
  rw [hA, hB]
  rfl

/-- Witness for C3: a concrete applied frame stores exactly the product of the
previous pose with the estimated incremental transform. -/
theorem c3_pose_chain_w :
    ∃ s', process_frame extOK DetectorType.sift s0 frame0 = Except.ok s' ∧
      matmulPy s0.H_old (PyMat.m33 hC) = Except.ok (PyMat.m33 (mul33 eye3 hC)) ∧
      s'.H_old = PyMat.m33 (mul33 eye3 hC) := by
  have hm : ¬ (matchFn extOK DetectorType.sift
      (extOK.detectAndCompute (extOK.cvtColor frame0)).2 s0.des_prev).length < 4 := by
    have : matchFn extOK DetectorType.sift desC desC =
        [⟨0, 0, 1⟩, ⟨1, 1, 1⟩, ⟨2, 2, 1⟩, ⟨3, 3, 1⟩] := by
      norm_num [matchFn, rawMatches, extOK, pairsC, ratioTest, truncSort,
        List.insertionSort, List.orderedInsert, distLe]
    show ¬ (matchFn extOK DetectorType.sift desC desC).length < 4
    rw [this]
    decide
  have hfit : findHomographyE extOK.estimateAffine2D extOK.findHomographyCV
      (extOK.detectAndCompute (extOK.cvtColor frame0)).1 s0.kp_prev
      (matchFn extOK DetectorType.sift
        (extOK.detectAndCompute (extOK.cvtColor frame0)).2 s0.des_prev) =
      Except.ok (PyMat.m33 hC) := by
    have hms : matchFn extOK DetectorType.sift desC desC =
        [⟨0, 0, 1⟩, ⟨1, 1, 1⟩, ⟨2, 2, 1⟩, ⟨3, 3, 1⟩] := by
      norm_num [matchFn, rawMatches, extOK, pairsC, ratioTest, truncSort,
        List.insertionSort, List.orderedInsert, distLe]
    show findHomographyE extOK.estimateAffine2D extOK.findHomographyCV kpC kpC
      (matchFn extOK DetectorType.sift desC desC) = Except.ok (PyMat.m33 hC)
    rw [hms]
    have h1 : imagePoints kpC (([⟨0, 0, 1⟩, ⟨1, 1, 1⟩, ⟨2, 2, 1⟩,
        ⟨3, 3, 1⟩] : List MatchRec).map MatchRec.queryIdx) = Except.ok kpC := rfl
    have h2 : imagePoints kpC (([⟨0, 0, 1⟩, ⟨1, 1, 1⟩, ⟨2, 2, 1⟩,
        ⟨3, 3, 1⟩] : List MatchRec).map MatchRec.trainIdx) = Except.ok kpC := rfl
    rw [findHomographyE_points h1 h2,
      fitAndNormalize_proj (selectRawFit_complex (by norm_num [meanDisplacement, kpC])
        (by norm_num [meanDisplacement, kpC]))]
    rfl
  exact c3_pose_chain extOK DetectorType.sift s0 frame0 hm hfit rfl rfl

/-- Claim C10: every transform passed to `warp` is the 3×3 chained cumulative
pose, so the affine-specific resampling branch guarded by `H.shape == (2, 3)`
is unreachable: whatever motion class was detected, the applied frame is
resampled by the general projective operation (`warpPerspective`) and merged
into the canvas. -/
theorem c10_warp_always_perspective (ext : Externals) (dt : DetectorType) (s : MosaicState)
    (frame_cur : Frame) {Hinc : PyMat} {A : Mat33}
    (hA : s.H_old = PyMat.m33 A)
    (hm : ¬ (matchFn ext dt (ext.detectAndCompute (ext.cvtColor frame_cur)).2 s.des_prev).length < 4)
    (hfit : findHomographyE ext.estimateAffine2D ext.findHomographyCV
        (ext.detectAndCompute (ext.cvtColor frame_cur)).1 s.kp_prev
        (matchFn ext dt (ext.detectAndCompute (ext.cvtColor frame_cur)).2 s.des_prev) =
      Except.ok Hinc) :
    ∃ B : Mat33, Hinc = PyMat.m33 B ∧
      warpKind (PyMat.m33 (mul33 A B)) = WarpKind.perspectiveWarp ∧
      ∃ s', process_frame ext dt s frame_cur = Except.ok s' ∧
        s'.H_old = PyMat.m33 (mul33 A B) ∧
        s'.output_img.px = merge s.output_img.px
          (ext.warpPerspective frame_cur (mul33 A B) s.output_img.w s.output_img.h) := by
  obtain ⟨B, hB⟩ := findHomographyE_ok_m33 hfit
  refine ⟨B, hB, rfl, _, process_frame_applied ext dt s frame_cur hm hfit hA hB, rfl, ?_⟩
  show warp ext s.output_img frame_cur (PyMat.m33 (mul33 A B)) = _
  rfl

/-- Witness for C10: on a concrete applied frame the canvas is updated through
the perspective warp of the 3×3 chained pose. -/
theorem c10_warp_always_perspective_w :
    ∃ B : Mat33, PyMat.m33 hC = PyMat.m33 B ∧
      warpKind (PyMat.m33 (mul33 eye3 B)) = WarpKind.perspectiveWarp ∧
      ∃ s', process_frame extOK DetectorType.sift s0 frame0 = Except.ok s' ∧
        s'.H_old = PyMat.m33 (mul33 eye3 B) ∧
        s'.output_img.px = merge s0.output_img.px
          (extOK.warpPerspective frame0 (mul33 eye3 B) s0.output_img.w s0.output_img.h) := by
  have hm : ¬ (matchFn extOK DetectorType.sift
      (extOK.detectAndCompute (extOK.cvtColor frame0)).2 s0.des_prev).length < 4 := by
    have : matchFn extOK DetectorType.sift desC desC =
        [⟨0, 0, 1⟩, ⟨1, 1, 1⟩, ⟨2, 2, 1⟩, ⟨3, 3, 1⟩] := by
      norm_num [matchFn, rawMatches, extOK, pairsC, ratioTest, truncSort,
        List.insertionSort, List.orderedInsert, distLe]
    show ¬ (matchFn extOK DetectorType.sift desC desC).length < 4
    rw [this]
    decide
  have hfit : findHomographyE extOK.estimateAffine2D extOK.findHomographyCV
      (extOK.detectAndCompute (extOK.cvtColor frame0)).1 s0.kp_prev
      (matchFn extOK DetectorType.sift
        (extOK.detectAndCompute (extOK.cvtColor frame0)).2 s0.des_prev) =
      Except.ok (PyMat.m33 hC) := by
    have hms : matchFn extOK DetectorType.sift desC desC =
        [⟨0, 0, 1⟩, ⟨1, 1, 1⟩, ⟨2, 2, 1⟩, ⟨3, 3, 1⟩] := by
      norm_num [matchFn, rawMatches, extOK, pairsC, ratioTest, truncSort,
        List.insertionSort, List.orderedInsert, distLe]
    show findHomographyE extOK.estimateAffine2D extOK.findHomographyCV kpC kpC
      (matchFn extOK DetectorType.sift desC desC) = Except.ok (PyMat.m33 hC)
    rw [hms]
    have h1 : imagePoints kpC (([⟨0, 0, 1⟩, ⟨1, 1, 1⟩, ⟨2, 2, 1⟩,
        ⟨3, 3, 1⟩] : List MatchRec).map MatchRec.queryIdx) = Except.ok kpC := rfl
    have h2 : imagePoints kpC (([⟨0, 0, 1⟩, ⟨1, 1, 1⟩, ⟨2, 2, 1⟩,
        ⟨3, 3, 1⟩] : List MatchRec).map MatchRec.trainIdx) = Except.ok kpC := rfl
    rw [findHomographyE_points h1 h2,
      fitAndNormalize_proj (selectRawFit_complex (by norm_num [meanDisplacement, kpC])
        (by norm_num [meanDisplacement, kpC]))]
    rfl
  exact c10_warp_always_perspective extOK DetectorType.sift s0 frame0 rfl hm hfit

/-- Helper: with enough matches, successful point gathers and a robust fit
that produces no solution, `process_frame` propagates the `AttributeError`
raised inside `findHomography` (line 104 reading `.shape` on `None`). -/
theorem process_frame_fit_failure (ext : Externals) (dt : DetectorType) (s : MosaicState)
    (frame_cur : Frame) (p1 p2 : List Pt)
    (hm : ¬ (matchFn ext dt (ext.detectAndCompute (ext.cvtColor frame_cur)).2 s.des_prev).length < 4)
    (h1 : imagePoints (ext.detectAndCompute (ext.cvtColor frame_cur)).1
        ((matchFn ext dt (ext.detectAndCompute (ext.cvtColor frame_cur)).2
          s.des_prev).map MatchRec.queryIdx) = Except.ok p1)
    (h2 : imagePoints s.kp_prev
        ((matchFn ext dt (ext.detectAndCompute (ext.cvtColor frame_cur)).2
          s.des_prev).map MatchRec.trainIdx) = Except.ok p2)
    (hfail : selectRawFit ext.estimateAffine2D ext.findHomographyCV p1 p2 = none) :
    process_frame ext dt s frame_cur =
      Except.error (PyErr.attributeError "NoneType object has no attribute shape") := by
  have hfh : findHomographyE ext.estimateAffine2D ext.findHomographyCV
      (ext.detectAndCompute (ext.cvtColor frame_cur)).1 s.kp_prev
      (matchFn ext dt (ext.detectAndCompute (ext.cvtColor frame_cur)).2 s.des_prev) =
      Except.error (PyErr.attributeError "NoneType object has no attribute shape") := by
    rw [findHomographyE_points h1 h2]
    unfold fitAndNormalize
    rw [hfail]
  simp only [process_frame]
  rw [if_neg hm, hfh]

/-- Helper: the concrete failing externals still yield the 4 concrete
matches. -/
theorem extFail_matches : matchFn extFail DetectorType.sift desC desC =
    [⟨0, 0, 1⟩, ⟨1, 1, 1⟩, ⟨2, 2, 1⟩, ⟨3, 3, 1⟩] := by
  norm_num [matchFn, rawMatches, extFail, extOK, pairsC, ratioTest, truncSort,
    List.insertionSort, List.orderedInsert, distLe]

/-- Helper: on identical keypoints the classifier goes complex and the failing
projective fitter yields no solution. -/
theorem extFail_fitfail :
    selectRawFit extFail.estimateAffine2D extFail.findHomographyCV kpC kpC = none := by
  have hc1 : ¬ |(meanDisplacement kpC kpC).1| > |(meanDisplacement kpC kpC).2| * (3 / 2) := by
    norm_num [meanDisplacement, kpC]
  have hc2 : ¬ |(meanDisplacement kpC kpC).2| > |(meanDisplacement kpC kpC).1| * (3 / 2) := by
    norm_num [meanDisplacement, kpC]
  rw [selectRawFit_complex hc1 hc2]
  rfl

/-- Claim C9 (amended): when the robust fit produces no solution, the
estimator raises a hard error — the Python `AttributeError` from reading
`.shape` on the absent result — which propagates uncaught out of
`process_frame` and aborts the run; the error is untyped and carries neither
the failing frame's index nor a structured reason. -/
theorem c9_fit_failure_untyped_abort (ext : Externals) (dt : DetectorType) (s : MosaicState)
    (frame_cur : Frame) (p1 p2 : List Pt)
    (hm : ¬ (matchFn ext dt (ext.detectAndCompute (ext.cvtColor frame_cur)).2 s.des_prev).length < 4)
    (h1 : imagePoints (ext.detectAndCompute (ext.cvtColor frame_cur)).1
        ((matchFn ext dt (ext.detectAndCompute (ext.cvtColor frame_cur)).2
          s.des_prev).map MatchRec.queryIdx) = Except.ok p1)
    (h2 : imagePoints s.kp_prev
        ((matchFn ext dt (ext.detectAndCompute (ext.cvtColor frame_cur)).2
          s.des_prev).map MatchRec.trainIdx) = Except.ok p2)
    (hfail : selectRawFit ext.estimateAffine2D ext.findHomographyCV p1 p2 = none) :
    process_frame ext dt s frame_cur =
      Except.error (PyErr.attributeError "NoneType object has no attribute shape") ∧
    carriesFrameIndex (PyErr.attributeError "NoneType object has no attribute shape") = false :=
  ⟨process_frame_fit_failure ext dt s frame_cur p1 p2 hm h1 h2 hfail, rfl⟩

/-- Witness for the amended C9: a concrete run whose fitters fail aborts with
the untyped AttributeError. -/
theorem c9_fit_failure_untyped_abort_w :
    process_frame extFail DetectorType.sift s0 frame0 =
      Except.error (PyErr.attributeError "NoneType object has no attribute shape") ∧
    carriesFrameIndex (PyErr.attributeError "NoneType object has no attribute shape") = false := by
  refine c9_fit_failure_untyped_abort extFail DetectorType.sift s0 frame0 kpC kpC ?_ ?_ ?_
    extFail_fitfail
  · show ¬ (matchFn extFail DetectorType.sift desC desC).length < 4
    rw [extFail_matches]
    decide
  · show imagePoints kpC ((matchFn extFail DetectorType.sift desC desC).map
      MatchRec.queryIdx) = Except.ok kpC
    rw [extFail_matches]
    rfl
  · show imagePoints kpC ((matchFn extFail DetectorType.sift desC desC).map
      MatchRec.trainIdx) = Except.ok kpC
    rw [extFail_matches]
    rfl

/-- Counterexample to C9 as stated: on a concrete frame whose robust fit
produces no solution, the error `process_frame` propagates is the untyped
Python `AttributeError`, not a typed failure carrying the failing frame's
index and a reason. -/
theorem c9_counterexample :
    process_frame extFail DetectorType.sift s0 frame0 =
      Except.error (PyErr.attributeError "NoneType object has no attribute shape") ∧
    carriesFrameIndex (PyErr.attributeError "NoneType object has no attribute shape") = false := by
  refine ⟨process_frame_fit_failure extFail DetectorType.sift s0 frame0 kpC kpC ?_ ?_ ?_
    extFail_fitfail, rfl⟩
  · show ¬ (matchFn extFail DetectorType.sift desC desC).length < 4
    rw [extFail_matches]
    decide
  · show imagePoints kpC ((matchFn extFail DetectorType.sift desC desC).map
      MatchRec.queryIdx) = Except.ok kpC
    rw [extFail_matches]
    rfl
  · show imagePoints kpC ((matchFn extFail DetectorType.sift desC desC).map
      MatchRec.trainIdx) = Except.ok kpC
    rw [extFail_matches]
    rfl

/-- Claim C7: in a merge, every non-background (positive) warped pixel
overwrites the canvas pixel and every background (zero) warped pixel leaves
the canvas pixel untouched; in particular, merging a frame that is zero
outside a rectangle of non-zero value `B` into a canvas filled with `A`
yields `A` outside the rectangle and `B` inside it, exactly. -/
theorem c7_merge_overwrite (A B : ℕ) (r1 r2 c1 c2 : ℕ) (hB : 0 < B) :
    (∀ canvas warped : ℕ → ℕ → ℕ, ∀ i j,
        (0 < warped i j → merge canvas warped i j = warped i j) ∧
        (warped i j = 0 → merge canvas warped i j = canvas i j)) ∧
    (∀ i j,
      merge (fun _ _ => A)
          (fun i j => if r1 ≤ i ∧ i < r2 ∧ c1 ≤ j ∧ j < c2 then B else 0) i j =
        if r1 ≤ i ∧ i < r2 ∧ c1 ≤ j ∧ j < c2 then B else A) := by
  constructor
  · intro canvas warped i j
    constructor
    · intro h
      simp [merge, h]
    · intro h
      simp [merge, h]
  · intro i j
    by_cases hin : r1 ≤ i ∧ i < r2 ∧ c1 ≤ j ∧ j < c2
    · simp [merge, hin, hB]
    · simp [merge, hin]

/-- Witness for C7: a concrete rectangle merge keeps the canvas value outside
and takes the warped value inside. -/
theorem c7_merge_overwrite_w :
    merge (fun _ _ => 5) (fun i j => if 1 ≤ i ∧ i < 3 ∧ 1 ≤ j ∧ j < 3 then 7 else 0) 2 2 = 7 ∧
    merge (fun _ _ => 5) (fun i j => if 1 ≤ i ∧ i < 3 ∧ 1 ≤ j ∧ j < 3 then 7 else 0) 0 0 = 5 := by
  have h := c7_merge_overwrite 5 7 1 3 1 3 (by decide)
  constructor
  · have h2 := h.2 2 2
    rw [if_pos (by decide : (1 : ℕ) ≤ 2 ∧ 2 < 3 ∧ 1 ≤ 2 ∧ 2 < 3)] at h2
    exact h2
  · have h0 := h.2 0 0
    rw [if_neg (by decide : ¬ ((1 : ℕ) ≤ 0 ∧ 0 < 3 ∧ 1 ≤ 0 ∧ 0 < 3))] at h0
    exact h0

/-- Helper: Python `int()` of an exact integer value is that integer. -/
theorem pyInt_intCast (n : ℤ) : pyInt (n : ℚ) = n := by
  unfold pyInt
  by_cases h : (0 : ℚ) ≤ (n : ℚ)
  · rw [if_pos h, Int.floor_intCast]
  · rw [if_neg h]
    have e : -((n : ℤ) : ℚ) = ((-n : ℤ) : ℚ) := by push_cast; ring
    rw [e, Int.floor_intCast]
    ring

/-- Helper: Python `int()` of a nonnegative value is nonnegative. -/
theorem pyInt_nonneg {q : ℚ} (h : 0 ≤ q) : 0 ≤ pyInt q := by
  unfold pyInt
  rw [if_pos h]
  exact Int.floor_nonneg.mpr h

/-- Helper: Python `int()` does not drop below any natural lower bound. -/
theorem le_pyInt {n : ℕ} {q : ℚ} (h : (n : ℚ) ≤ q) : (n : ℤ) ≤ pyInt q := by
  have h0 : (0 : ℚ) ≤ q := le_trans (by positivity) h
  unfold pyInt
  rw [if_pos h0]
  exact Int.le_floor.mpr (by exact_mod_cast h)

/-- Helper: line 34's arithmetic `int(a/1 - b/1)` on naturals is plain
subtraction in ℤ. -/
theorem pyInt_nat_sub (n m : ℕ) : pyInt ((n : ℚ) / 1 - (m : ℚ) / 1) = (n : ℤ) - m := by
  have e : (n : ℚ) / 1 - (m : ℚ) / 1 = (((n : ℤ) - m : ℤ) : ℚ) := by push_cast; ring
  rw [e, pyInt_intCast]

/-- Helper: line 35's arithmetic `int(a/2 - b/2)` on naturals with `b ≤ a` is
the floored halved difference, characterized by two-sided bounds. -/
theorem pyInt_half_bounds (n m : ℕ) (hnm : (m : ℤ) ≤ (n : ℤ)) :
    2 * pyInt ((n : ℚ) / 2 - (m : ℚ) / 2) ≤ (n : ℤ) - m ∧
    (n : ℤ) - m < 2 * pyInt ((n : ℚ) / 2 - (m : ℚ) / 2) + 2 := by
  have hmn : (m : ℚ) ≤ (n : ℚ) := by exact_mod_cast hnm
  have hq : (0 : ℚ) ≤ (n : ℚ) / 2 - (m : ℚ) / 2 := by linarith
  have hfl : pyInt ((n : ℚ) / 2 - (m : ℚ) / 2) = ⌊(n : ℚ) / 2 - (m : ℚ) / 2⌋ := by
    unfold pyInt
    rw [if_pos hq]
  have hlb := Int.floor_le ((n : ℚ) / 2 - (m : ℚ) / 2)
  have hub := Int.lt_floor_add_one ((n : ℚ) / 2 - (m : ℚ) / 2)
  rw [hfl]
  constructor
  · have h2 : 2 * ((⌊(n : ℚ) / 2 - (m : ℚ) / 2⌋ : ℤ) : ℚ) ≤ (n : ℚ) - (m : ℚ) := by
      linarith
    exact_mod_cast h2
  · have h2 : (n : ℚ) - (m : ℚ) < 2 * ((⌊(n : ℚ) / 2 - (m : ℚ) / 2⌋ : ℤ) : ℚ) + 2 := by
      linarith
    exact_mod_cast h2

/-- Claim C6: initialization allocates a canvas of size
`(int(heightMult·frameH), int(widthMult·frameW))`, places the first frame at
vertical offset `canvasH − frameH` and horizontal offset
`(canvasW − frameW)/2` (floored), sets the initial cumulative pose to the
identity with translation column `(h_offset, w_offset)`, and the offsets
depend only on the first frame's shape and the multipliers. -/
theorem c6_init_canvas (first : Frame) (ch : ℕ) (hmul wmul : ℚ)
    (hh : 1 ≤ hmul) (hw : 1 ≤ wmul) :
    (initMosaic first ch hmul wmul).output_img.h = (pyInt (hmul * first.h)).toNat ∧
    (initMosaic first ch hmul wmul).output_img.w = (pyInt (wmul * first.w)).toNat ∧
    (initMosaic first ch hmul wmul).w_offset =
      (((initMosaic first ch hmul wmul).output_img.h : ℕ) : ℤ) - first.h ∧
    (2 * (initMosaic first ch hmul wmul).h_offset ≤
        (((initMosaic first ch hmul wmul).output_img.w : ℕ) : ℤ) - first.w ∧
      (((initMosaic first ch hmul wmul).output_img.w : ℕ) : ℤ) - first.w <
        2 * (initMosaic first ch hmul wmul).h_offset + 2) ∧
    (0 ≤ (initMosaic first ch hmul wmul).w_offset ∧
      0 ≤ (initMosaic first ch hmul wmul).h_offset) ∧
    (initMosaic first ch hmul wmul).H_old =
      PyMat.m33 ⟨1, 0, ((initMosaic first ch hmul wmul).h_offset : ℚ),
        0, 1, ((initMosaic first ch hmul wmul).w_offset : ℚ), 0, 0, 1⟩ ∧
    (∀ i j, i < first.h → j < first.w →
      (initMosaic first ch hmul wmul).output_img.px
          ((initMosaic first ch hmul wmul).w_offset.toNat + i)
          ((initMosaic first ch hmul wmul).h_offset.toNat + j) = first.px i j) ∧
    (∀ first' : Frame, first'.h = first.h → first'.w = first.w →
      (initMosaic first' ch hmul wmul).w_offset = (initMosaic first ch hmul wmul).w_offset ∧
      (initMosaic first' ch hmul wmul).h_offset = (initMosaic first ch hmul wmul).h_offset) := by
  have hHle : (first.h : ℤ) ≤ pyInt (hmul * first.h) :=
    le_pyInt (le_mul_of_one_le_left (by positivity) hh)
  have hWle : (first.w : ℤ) ≤ pyInt (wmul * first.w) :=
    le_pyInt (le_mul_of_one_le_left (by positivity) hw)
  have hfh : (first.h : ℤ) ≤ (((pyInt (hmul * first.h)).toNat : ℕ) : ℤ) := by omega
  have hfw : (first.w : ℤ) ≤ (((pyInt (wmul * first.w)).toNat : ℕ) : ℤ) := by omega
  refine ⟨rfl, rfl, pyInt_nat_sub _ _,
    ⟨(pyInt_half_bounds _ _ hfw).1, (pyInt_half_bounds _ _ hfw).2⟩, ⟨?_, ?_⟩, rfl, ?_, ?_⟩
  · have e : (initMosaic first ch hmul wmul).w_offset =
        (((pyInt (hmul * first.h)).toNat : ℕ) : ℤ) - first.h := pyInt_nat_sub _ _
    rw [e]
    omega
  · refine pyInt_nonneg ?_
    have hmn : (first.w : ℚ) ≤ (((pyInt (wmul * first.w)).toNat : ℕ) : ℚ) := by
      exact_mod_cast hfw
    linarith
  · intro i j hi hj
    simp only [initMosaic, seedCanvas]
    rw [if_pos (by omega)]
    simp
  · intro first' hh' hw'
    constructor
    · simp only [initMosaic]
      rw [hh']
    · simp only [initMosaic]
      rw [hw']

/-- Witness for C6: a 2×2 first frame with multipliers 3 and 6/5 gives a 6×2
canvas, vertical offset 4 and horizontal offset 0 (both characterizations
instantiated). -/
theorem c6_init_canvas_w :
    (1 : ℚ) ≤ 3 ∧ (1 : ℚ) ≤ 6 / 5 ∧
    ((initMosaic frame0 3 3 (6 / 5)).output_img.h = (pyInt ((3 : ℚ) * frame0.h)).toNat ∧
    (initMosaic frame0 3 3 (6 / 5)).output_img.w = (pyInt ((6 / 5 : ℚ) * frame0.w)).toNat ∧
    (initMosaic frame0 3 3 (6 / 5)).w_offset =
      (((initMosaic frame0 3 3 (6 / 5)).output_img.h : ℕ) : ℤ) - frame0.h ∧
    (2 * (initMosaic frame0 3 3 (6 / 5)).h_offset ≤
        (((initMosaic frame0 3 3 (6 / 5)).output_img.w : ℕ) : ℤ) - frame0.w ∧
      (((initMosaic frame0 3 3 (6 / 5)).output_img.w : ℕ) : ℤ) - frame0.w <
        2 * (initMosaic frame0 3 3 (6 / 5)).h_offset + 2) ∧
    (0 ≤ (initMosaic frame0 3 3 (6 / 5)).w_offset ∧
      0 ≤ (initMosaic frame0 3 3 (6 / 5)).h_offset) ∧
    (initMosaic frame0 3 3 (6 / 5)).H_old =
      PyMat.m33 ⟨1, 0, ((initMosaic frame0 3 3 (6 / 5)).h_offset : ℚ),
        0, 1, ((initMosaic frame0 3 3 (6 / 5)).w_offset : ℚ), 0, 0, 1⟩ ∧
    (∀ i j, i < frame0.h → j < frame0.w →
      (initMosaic frame0 3 3 (6 / 5)).output_img.px
          ((initMosaic frame0 3 3 (6 / 5)).w_offset.toNat + i)
          ((initMosaic frame0 3 3 (6 / 5)).h_offset.toNat + j) = frame0.px i j) ∧
    (∀ first' : Frame, first'.h = frame0.h → first'.w = frame0.w →
      (initMosaic first' 3 3 (6 / 5)).w_offset = (initMosaic frame0 3 3 (6 / 5)).w_offset ∧
      (initMosaic first' 3 3 (6 / 5)).h_offset = (initMosaic frame0 3 3 (6 / 5)).h_offset)) :=
  ⟨by norm_num, by norm_num,
    c6_init_canvas frame0 3 3 (6 / 5) (by norm_num) (by norm_num)⟩
